import Mathlib

/-!
Shallow embedding of the credential and token lifecycle engine of
`src/services/auth.service.ts` (the `AuthService` class), together with the
data model of `prisma/schema.prisma`.

Conventions of the embedding:
* Database time (`DateTime`) is modelled as `Nat` (milliseconds since epoch);
  `new Date()` at the moment of a call is an explicit `now : Nat` argument.
* The Prisma store is a `Store` value threaded explicitly; every service
  operation returns its result together with the store it leaves behind, and
  a thrown `Error` is an `Except.error` carrying a constructor per distinct
  error message of the source.
* `bcrypt.hash(pw, 12)` / `bcrypt.compare` and
  `crypto.createHash('sha256')` are modelled by injective digest functions;
  `crypto.randomBytes(32).toString('hex')` and `cuid()` id generation are
  modelled by passing the fresh random string / fresh id as arguments.
* `jwt.sign` / `jwt.verify` are modelled by a record of the signed claims
  plus the signing key; `jwt.verify` fails when the key mismatches
  (signature invalid) or the expiry has passed, as the jsonwebtoken
  library does.
-/

deriving instance DecidableEq for Except

/-- Model of JavaScript `String.prototype.toLowerCase()` (emails are ASCII
here), written by structural recursion over the character list so that it
evaluates inside the kernel. -/
def toLowerCase (s : String) : String := String.mk (s.data.map Char.toLower)

/-- `User` row of `prisma/schema.prisma` (the fields the credential service
reads or writes; `password` holds the bcrypt digest). -/
structure User where
  id : String
  email : String
  name : String
  password : String
  isActive : Bool
  lastLoginAt : Option Nat
deriving DecidableEq, Repr

/-- `PasswordReset` row of `prisma/schema.prisma`; `token` holds the SHA-256
digest of the raw secret, never the raw secret itself. -/
structure PasswordReset where
  id : String
  userId : String
  token : String
  expiresAt : Nat
deriving DecidableEq, Repr

/-- The Prisma store: the `users` and `password_resets` tables. -/
structure Store where
  users : List User
  passwordResets : List PasswordReset
deriving DecidableEq, Repr

/-- Model of `bcrypt.hash(pw, 12)`: an injective one-way digest with the
fixed cost-12 prefix. (The salt plays no role in the verified claims.) -/
def bcryptHash (pw : String) : String := "$2b$12$" ++ pw

/-- Model of `bcrypt.compare(pw, digest)`. -/
def bcryptCompare (pw digest : String) : Bool := digest == bcryptHash pw

/-- Model of `crypto.createHash('sha256').update(s).digest('hex')`:
a deterministic injective digest. -/
def sha256Hex (s : String) : String := "sha256$" ++ s

/-- `prisma.user.findUnique({ where: { email } })` (email is `@unique`). -/
def findUserByEmail (st : Store) (email : String) : Option User :=
  st.users.find? (fun u => u.email == email)

/-- `prisma.user.findUnique({ where: { id } })`. -/
def findUserById (st : Store) (id : String) : Option User :=
  st.users.find? (fun u => u.id == id)

/-- `prisma.user.update({ where: { id }, data: { password } })`. -/
def updateUserPassword (st : Store) (id digest : String) : Store :=
  { st with users := st.users.map (fun u =>
      if u.id == id then { u with password := digest } else u) }

/-- `prisma.user.update({ where: { id }, data: { lastLoginAt: new Date() } })`. -/
def updateUserLastLogin (st : Store) (id : String) (now : Nat) : Store :=
  { st with users := st.users.map (fun u =>
      if u.id == id then { u with lastLoginAt := some now } else u) }

/-- `prisma.passwordReset.findFirst({ where: { token } })` (token is `@unique`). -/
def findResetByToken (st : Store) (digest : String) : Option PasswordReset :=
  st.passwordResets.find? (fun r => r.token == digest)

/-- `prisma.passwordReset.delete({ where: { id } })`. -/
def deleteResetById (st : Store) (id : String) : Store :=
  { st with passwordResets := st.passwordResets.filter (fun r => r.id != id) }

/-- `prisma.passwordReset.deleteMany({ where: { userId } })`. -/
def deleteResetsForUser (st : Store) (userId : String) : Store :=
  { st with passwordResets := st.passwordResets.filter (fun r => r.userId != userId) }

/-- `prisma.passwordReset.create({ data: r })`. -/
def createReset (st : Store) (r : PasswordReset) : Store :=
  { st with passwordResets := st.passwordResets ++ [r] }

/-- One constructor per distinct `Error` message thrown by the service. -/
inductive AuthError where
  /-- 'Invalid email or password' -/
  | invalidEmailOrPassword
  /-- 'Account is deactivated' -/
  | accountDeactivated
  /-- 'User with this email already exists' -/
  | userAlreadyExists
  /-- 'Password must be at least 6 characters long' -/
  | passwordTooShort
  /-- 'New password must be at least 6 characters long' -/
  | newPasswordTooShort
  /-- 'User not found' -/
  | userNotFound
  /-- 'Current password is incorrect' -/
  | currentPasswordIncorrect
  /-- 'Invalid or expired reset token' -/
  | invalidResetToken
  /-- 'Reset token has expired. Please request a new password reset.' -/
  | resetTokenExpired
  /-- 'Failed to generate password reset token' -/
  | resetTokenGenerationFailed
  /-- 'Invalid token' (bearer-token verification) -/
  | invalidToken
deriving DecidableEq, Repr

/-- The spec's §7 error-kind taxonomy. -/
inductive ErrorKind where
  | invalidInput
  | conflict
  | invalidCredentials
  | accountDeactivated
  | invalidTokenKind
  | tokenExpiredKind
  | notFound
  | bearerTokenInvalid
  | infrastructure
deriving DecidableEq, Repr

/-- The spec's §7 taxonomy applied to the service's distinct error messages:
'Invalid email or password' and 'Current password is incorrect' are both the
`InvalidCredentials` kind, the two length messages are `InvalidInput`, and the
wrapped 'Failed to generate password reset token' is a generic infrastructure
failure. -/
def errKind : AuthError → ErrorKind
  | .invalidEmailOrPassword => .invalidCredentials
  | .accountDeactivated => .accountDeactivated
  | .userAlreadyExists => .conflict
  | .passwordTooShort => .invalidInput
  | .newPasswordTooShort => .invalidInput
  | .userNotFound => .notFound
  | .currentPasswordIncorrect => .invalidCredentials
  | .invalidResetToken => .invalidTokenKind
  | .resetTokenExpired => .tokenExpiredKind
  | .resetTokenGenerationFailed => .infrastructure
  | .invalidToken => .bearerTokenInvalid

/-- The hardcoded fallback of `process.env.JWT_SECRET || 'your-secret-key'`. -/
def defaultJwtKey : String := "your-secret-key"

/-- `expiresIn: '7d'` in seconds. -/
def sevenDays : Nat := 7 * 24 * 60 * 60

/-- A signed JWT as produced by `jwt.sign(payload, key, { expiresIn: '7d' })`:
the payload claims (`id` and `userId` both optional, matching the tolerant
reading in `verifyToken`), the issued-at/expiry claims, and the signing key. -/
structure Jwt where
  idClaim : Option String
  userIdClaim : Option String
  email : String
  iat : Nat
  exp : Nat
  key : String
deriving DecidableEq, Repr

/-- `AuthService.generateToken` (auth.service.ts lines 804-814): signs
`{ id: userId, userId, email }` with `process.env.JWT_SECRET || 'your-secret-key'`,
expiring 7 days after issuance. `jwtSecret` is `process.env.JWT_SECRET`
(`none` when the variable is unset). -/
def generateToken (jwtSecret : Option String) (now : Nat) (userId email : String) : Jwt :=
  { idClaim := some userId
    userIdClaim := some userId
    email := email
    iat := now
    exp := now + sevenDays
    key := jwtSecret.getD defaultJwtKey }

/-- The two failure kinds of the jsonwebtoken library's `verify`:
`JsonWebTokenError` (bad signature/structure) and `TokenExpiredError`. -/
inductive JwtVerifyError where
  | malformed
  | expired
deriving DecidableEq, Repr

/-- Model of `jwt.verify(token, key)`: fails `malformed` when the token was
not signed with `key`, fails `expired` when the expiry claim has passed
(jsonwebtoken: expired iff `clockTimestamp >= exp`), else returns the decoded
payload. -/
def jwtVerify (key : String) (now : Nat) (t : Jwt) : Except JwtVerifyError Jwt :=
  if t.key != key then .error .malformed
  else if t.exp ≤ now then .error .expired
  else .ok t

/-- The normalized user object `verifyToken` returns on success. -/
structure VerifiedUser where
  id : Option String
  userId : Option String
  email : String
deriving DecidableEq, Repr

/-- `AuthService.verifyToken` (auth.service.ts lines 817-830): runs
`jwt.verify` with `process.env.JWT_SECRET || 'your-secret-key'`, normalizes
the decoded claims (`id: decoded.id || decoded.userId`, and symmetrically),
and maps any verification failure to the single `Error('Invalid token')`. -/
def verifyToken (jwtSecret : Option String) (now : Nat) (t : Jwt) :
    Except AuthError VerifiedUser :=
  match jwtVerify (jwtSecret.getD defaultJwtKey) now t with
  | .error _ => .error .invalidToken
  | .ok decoded =>
      .ok { id := decoded.idClaim.orElse (fun _ => decoded.userIdClaim)
            userId := decoded.userIdClaim.orElse (fun _ => decoded.idClaim)
            email := decoded.email }

/-- The `user` object `login` returns: the selected fields minus `password`. -/
structure PublicUser where
  id : String
  email : String
  name : String
  isActive : Bool
deriving DecidableEq, Repr

/-- Drops the `password` field (`const { password: _, ...userWithoutPassword }`). -/
def withoutPassword (u : User) : PublicUser :=
  { id := u.id, email := u.email, name := u.name, isActive := u.isActive }

/-- `AuthService.login` (auth.service.ts lines 314-357): look up the user by
lowercased email; absent → 'Invalid email or password'; inactive → 'Account is
deactivated'; `bcrypt.compare` failure → 'Invalid email or password'; on
success update `lastLoginAt`, issue a JWT and return the user without the
password digest. -/
def login (jwtSecret : Option String) (now : Nat) (st : Store) (email password : String) :
    Except AuthError (PublicUser × Jwt) × Store :=
  match findUserByEmail st (toLowerCase email) with
  | none => (.error .invalidEmailOrPassword, st)
  | some user =>
      if !user.isActive then (.error .accountDeactivated, st)
      else if !bcryptCompare password user.password then
        (.error .invalidEmailOrPassword, st)
      else
        (.ok (withoutPassword user, generateToken jwtSecret now user.id user.email),
         updateUserLastLogin st user.id now)

/-- The `{ email, name, resetToken }` value `generatePasswordResetToken`
returns for delivery by email; `resetToken` is the raw (unhashed) secret. -/
structure ResetTokenData where
  email : String
  name : String
  resetToken : String
deriving DecidableEq, Repr

/-- The body of the `try` block of `AuthService.generatePasswordResetToken`
(auth.service.ts lines 408-455): unknown email → `null` (no error, no write);
inactive account → throw 'Account is deactivated'; otherwise delete every
existing reset token of the user and create one new record
`{ userId, token: sha256(raw), expiresAt: now + 1h }`, returning the raw
secret. `rawToken` models `crypto.randomBytes(32).toString('hex')` and
`newId` the generated row id. -/
def generatePasswordResetTokenInner (now : Nat) (rawToken newId : String)
    (st : Store) (email : String) :
    Except AuthError (Option ResetTokenData) × Store :=
  match findUserByEmail st (toLowerCase email) with
  | none => (.ok none, st)
  | some user =>
      if !user.isActive then (.error .accountDeactivated, st)
      else
        let hashedToken := sha256Hex rawToken
        let expiresAt := now + 60 * 60 * 1000
        let st1 := deleteResetsForUser st user.id
        let st2 := createReset st1
          { id := newId, userId := user.id, token := hashedToken, expiresAt := expiresAt }
        (.ok (some { email := user.email, name := user.name, resetToken := rawToken }), st2)

/-- `AuthService.generatePasswordResetToken` (auth.service.ts lines 406-460):
the `try` body above wrapped by the `catch` clause of lines 456-459, which
replaces any thrown error by `Error('Failed to generate password reset token')`. -/
def generatePasswordResetToken (now : Nat) (rawToken newId : String)
    (st : Store) (email : String) :
    Except AuthError (Option ResetTokenData) × Store :=
  match generatePasswordResetTokenInner now rawToken newId st email with
  | (.error _, st1) => (.error .resetTokenGenerationFailed, st1)
  | (.ok v, st1) => (.ok v, st1)

/-- `AuthService.resetPassword` (auth.service.ts lines 465-542): reject a new
password shorter than 6 characters (the `!newPassword` falsy test is subsumed,
an empty string having length 0); hash the raw token and look the record up by
digest, joined with its owning user (`include: { user: ... }`; the branch
where the owning user is missing is unreachable in the database because of the
`userId` foreign key); absent record → 'Invalid or expired reset token';
`now > expiresAt` → delete the record and throw the expired message; inactive
owner → 'Account is deactivated'; otherwise apply the
`prisma.$transaction([update password, delete token])` pair atomically. The
outer `catch` (lines 538-541) re-throws the same error, and the confirmation
email is fire-and-forget with no store effect. -/
def resetPassword (now : Nat) (st : Store) (token newPassword : String) :
    Except AuthError Unit × Store :=
  if newPassword.length < 6 then (.error .passwordTooShort, st)
  else
    let hashedToken := sha256Hex token
    match findResetByToken st hashedToken with
    | none => (.error .invalidResetToken, st)
    | some resetRecord =>
        match findUserById st resetRecord.userId with
        | none => (.error .invalidResetToken, st)
        | some user =>
            if resetRecord.expiresAt < now then
              (.error .resetTokenExpired, deleteResetById st resetRecord.id)
            else if !user.isActive then (.error .accountDeactivated, st)
            else
              (.ok (),
               deleteResetById
                 (updateUserPassword st resetRecord.userId (bcryptHash newPassword))
                 resetRecord.id)

/-- `AuthService.changePassword` (auth.service.ts lines 544-586): absent user
→ 'User not found'; inactive → 'Account is deactivated'; `bcrypt.compare`
failure on the current password → 'Current password is incorrect'; new
password shorter than 6 → its length message; otherwise replace the digest. -/
def changePassword (st : Store) (userId currentPassword newPassword : String) :
    Except AuthError Unit × Store :=
  match findUserById st userId with
  | none => (.error .userNotFound, st)
  | some user =>
      if !user.isActive then (.error .accountDeactivated, st)
      else if !bcryptCompare currentPassword user.password then
        (.error .currentPasswordIncorrect, st)
      else if newPassword.length < 6 then (.error .newPasswordTooShort, st)
      else (.ok (), updateUserPassword st userId (bcryptHash newPassword))

/-! ### Concrete fixtures used by witnesses and counterexamples -/

/-- An active registered user whose password is `secret1`. -/
def aliceUser : User :=
  { id := "u-alice", email := "alice@example.com", name := "Alice",
    password := bcryptHash "secret1", isActive := true, lastLoginAt := none }

/-- A store holding only Alice, with no reset tokens. -/
def demoStore : Store := { users := [aliceUser], passwordResets := [] }

/-- A live reset token of Alice whose raw secret is `rawtok1`. -/
def aliceReset : PasswordReset :=
  { id := "pr-alice", userId := "u-alice", token := sha256Hex "rawtok1", expiresAt := 1000 }

/-- Alice together with her live reset token. -/
def resetStore : Store := { users := [aliceUser], passwordResets := [aliceReset] }

/-- A reset token of Alice that expired at time 5. -/
def expiredReset : PasswordReset :=
  { id := "pr-exp", userId := "u-alice", token := sha256Hex "rawexp", expiresAt := 5 }

/-- Alice together with her expired reset token. -/
def expiredStore : Store := { users := [aliceUser], passwordResets := [expiredReset] }

/-- A deactivated user whose password is `carolpw`. -/
def carolUser : User :=
  { id := "u-carol", email := "carol@example.com", name := "Carol",
    password := bcryptHash "carolpw", isActive := false, lastLoginAt := none }

/-- A store holding only the deactivated Carol. -/
def inactiveStore : Store := { users := [carolUser], passwordResets := [] }

/-- A signing key for the bearer-token scenarios. -/
def prodSecret : String := "prod-secret"

/-- A token signed with a different key than the verifier's. -/
def malformedJwt : Jwt := generateToken (some "other-key") 0 "u1" "u1@example.com"

/-- A correctly signed token issued at time 0, hence expired after `sevenDays`. -/
def expiredJwt : Jwt := generateToken (some prodSecret) 0 "u1" "u1@example.com"

/-! ### Helper lemmas -/

/-- When the raw token matches no stored digest, `resetPassword` (given a new
password passing the length validation) fails with the
'Invalid or expired reset token' error and leaves the store unchanged. -/
theorem resetPassword_no_record (now : Nat) (st : Store) (raw pw : String)
    (hpw : 6 ≤ pw.length)
    (hnone : findResetByToken st (sha256Hex raw) = none) :
    resetPassword now st raw pw = (Except.error AuthError.invalidResetToken, st) := by
  simp [resetPassword, Nat.not_lt.mpr hpw, hnone]

/-- Deleting the record whose id every digest-matching record shares removes
every record matching that digest: the subsequent lookup finds nothing.
(The hypothesis holds in the database because `token` is `@unique`.) -/
theorem find_after_delete_eq_none (st : Store) (digest : String) (rec : PasswordReset)
    (huniq : ∀ r ∈ st.passwordResets, r.token = digest → r.id = rec.id) :
    findResetByToken (deleteResetById st rec.id) digest = none := by
  unfold findResetByToken deleteResetById
  rw [List.find?_eq_none]
  intro r hr
  simp only [List.mem_filter, bne_iff_ne, ne_eq] at hr
  intro hbeq
  exact hr.2 (huniq r hr.1 (by simpa using hbeq))

/-! ### Claims -/

/-- C2: Login is enumeration-resistant: whether the (lowercased) email matches
no user, or matches an active user whose password fails `bcrypt.compare`, the
call returns the identical `Error('Invalid email or password')` and leaves the
store unchanged, so the two runs are indistinguishable to the caller. -/
theorem C2_login_enumeration_resistant (jwtSecret : Option String) (now : Nat)
    (st : Store) (email pw : String)
    (h : findUserByEmail st (toLowerCase email) = none ∨
         ∃ u, findUserByEmail st (toLowerCase email) = some u ∧ u.isActive = true ∧
           bcryptCompare pw u.password = false) :
    login jwtSecret now st email pw = (Except.error AuthError.invalidEmailOrPassword, st) := by
  rcases h with h | ⟨u, hu, hact, hcmp⟩
  · simp [login, h]
  · simp [login, hu, hact, hcmp]

/-- Witness for C2: in a store holding only Alice, login with an unknown email
and login with Alice's email but a wrong password produce the same error. -/
theorem C2_login_enumeration_resistant_witness :
    login none 0 demoStore "ghost@example.com" "pw123456"
      = (Except.error AuthError.invalidEmailOrPassword, demoStore) ∧
    login none 0 demoStore "alice@example.com" "wrongpw"
      = (Except.error AuthError.invalidEmailOrPassword, demoStore) :=
  ⟨C2_login_enumeration_resistant none 0 demoStore "ghost@example.com" "pw123456"
      (Or.inl rfl),
   C2_login_enumeration_resistant none 0 demoStore "alice@example.com" "wrongpw"
      (Or.inr ⟨aliceUser, rfl, rfl, rfl⟩)⟩

/-- C10: `login` checks `isActive` before verifying the password: a
deactivated account yields `Error('Account is deactivated')` for every
supplied password, an error distinct from the invalid-credentials one. -/
theorem C10_login_inactive_account (jwtSecret : Option String) (now : Nat)
    (st : Store) (email pw : String) (u : User)
    (hu : findUserByEmail st (toLowerCase email) = some u)
    (hin : u.isActive = false) :
    login jwtSecret now st email pw = (Except.error AuthError.accountDeactivated, st) ∧
    AuthError.accountDeactivated ≠ AuthError.invalidEmailOrPassword := by
  refine ⟨?_, by decide⟩
  simp [login, hu, hin]

/-- Witness for C10: the deactivated Carol, presenting her correct password,
still gets the account-deactivated error. -/
theorem C10_login_inactive_account_witness :
    login none 0 inactiveStore "carol@example.com" "carolpw"
      = (Except.error AuthError.accountDeactivated, inactiveStore) ∧
    AuthError.accountDeactivated ≠ AuthError.invalidEmailOrPassword :=
  C10_login_inactive_account none 0 inactiveStore "carol@example.com" "carolpw"
    carolUser rfl rfl

/-- C5: for an email matching no user, `generatePasswordResetToken` returns
the `null` sentinel (no error) and leaves the store unchanged: no reset-token
record is created. -/
theorem C5_generate_unknown_email_noop (now : Nat) (raw newId : String)
    (st : Store) (email : String)
    (h : findUserByEmail st (toLowerCase email) = none) :
    generatePasswordResetToken now raw newId st email = (Except.ok none, st) := by
  simp [generatePasswordResetToken, generatePasswordResetTokenInner, h]

/-- Witness for C5: an unregistered address gets the sentinel and the store
is untouched. -/
theorem C5_generate_unknown_email_noop_witness :
    generatePasswordResetToken 0 "rawX" "prX" demoStore "nobody@example.com"
      = (Except.ok none, demoStore) :=
  C5_generate_unknown_email_noop 0 "rawX" "prX" demoStore "nobody@example.com" rfl

/-- C9: `changePassword` with a current password failing `bcrypt.compare`
fails with `Error('Current password is incorrect')` — the spec's
`InvalidCredentials` kind — and returns the store unchanged, so the stored
digest (and every other field of every record) is exactly as before. -/
theorem C9_change_password_wrong_current (st : Store) (userId cur new : String)
    (u : User)
    (hu : findUserById st userId = some u)
    (hact : u.isActive = true)
    (hbad : bcryptCompare cur u.password = false) :
    changePassword st userId cur new = (Except.error AuthError.currentPasswordIncorrect, st) ∧
    errKind AuthError.currentPasswordIncorrect = ErrorKind.invalidCredentials := by
  refine ⟨?_, rfl⟩
  simp [changePassword, hu, hact, hbad]

/-- Witness for C9: Alice's record survives a change-password attempt with a
wrong current password, and her old password still verifies. -/
theorem C9_change_password_wrong_current_witness :
    changePassword demoStore "u-alice" "wrongpw" "newpass1"
      = (Except.error AuthError.currentPasswordIncorrect, demoStore) ∧
    bcryptCompare "secret1" aliceUser.password = true :=
  ⟨(C9_change_password_wrong_current demoStore "u-alice" "wrongpw" "newpass1"
      aliceUser rfl rfl rfl).1, rfl⟩

/-- C7 (code bug): with `JWT_SECRET` absent, `generateToken` does not fail:
it silently signs every token with the hardcoded fallback key
`'your-secret-key'`. -/
theorem C7_missing_secret_signs_with_default (now : Nat) (userId email : String) :
    (generateToken none now userId email).key = defaultJwtKey ∧
    defaultJwtKey = "your-secret-key" :=
  ⟨rfl, rfl⟩

/-- C8 counterexample: a token signed with the wrong key and a correctly
signed but expired token fail `jwt.verify` for genuinely different reasons,
yet `verifyToken` reports the identical generic `Error('Invalid token')` for
both — the two failure kinds are not observable by the caller. -/
theorem C8_counterexample :
    jwtVerify prodSecret 10 malformedJwt = Except.error JwtVerifyError.malformed ∧
    jwtVerify prodSecret (sevenDays + 10) expiredJwt = Except.error JwtVerifyError.expired ∧
    verifyToken (some prodSecret) 10 malformedJwt = Except.error AuthError.invalidToken ∧
    verifyToken (some prodSecret) (sevenDays + 10) expiredJwt
      = Except.error AuthError.invalidToken :=
  ⟨rfl, rfl, rfl, rfl⟩

/-- C8 (amended): whenever the underlying `jwt.verify` fails — be it for an
invalid signature/structure or for expiry — `verifyToken` fails with the
single collapsed `Error('Invalid token')`. -/
theorem C8_amended_verify_collapses (jwtSecret : Option String) (now : Nat)
    (t : Jwt) (e : JwtVerifyError)
    (h : jwtVerify (jwtSecret.getD defaultJwtKey) now t = Except.error e) :
    verifyToken jwtSecret now t = Except.error AuthError.invalidToken := by
  simp [verifyToken, h]

/-- Witness for the amended C8, at the concrete wrong-key token. -/
theorem C8_amended_verify_collapses_witness :
    verifyToken (some prodSecret) 10 malformedJwt = Except.error AuthError.invalidToken :=
  C8_amended_verify_collapses (some prodSecret) 10 malformedJwt
    JwtVerifyError.malformed rfl

/-- C6 counterexample: for the deactivated Carol, the observable failure of
`generatePasswordResetToken` is the generic
`Error('Failed to generate password reset token')` produced by the catch-all
of lines 456-459 — not the account-deactivated error the claim names. -/
theorem C6_counterexample :
    (generatePasswordResetToken 0 "rawsecret" "pr-c" inactiveStore "carol@example.com").1
      = Except.error AuthError.resetTokenGenerationFailed ∧
    (generatePasswordResetToken 0 "rawsecret" "pr-c" inactiveStore "carol@example.com").1
      ≠ Except.error AuthError.accountDeactivated :=
  ⟨rfl, by decide⟩

/-- C6 (amended): for an email matching a deactivated user, the `try` body
raises the account-deactivated error, but the catch-all wrapper replaces it,
so the call fails with the generic token-generation failure — an
infrastructure-kind error, not `AccountDeactivated` — and the store is
unchanged: no reset-token record is created. -/
theorem C6_amended_generate_inactive_generic (now : Nat) (raw newId : String)
    (st : Store) (email : String) (u : User)
    (hu : findUserByEmail st (toLowerCase email) = some u)
    (hin : u.isActive = false) :
    generatePasswordResetToken now raw newId st email
      = (Except.error AuthError.resetTokenGenerationFailed, st) ∧
    (generatePasswordResetTokenInner now raw newId st email).1
      = Except.error AuthError.accountDeactivated ∧
    errKind AuthError.resetTokenGenerationFailed = ErrorKind.infrastructure := by
  have hinner : generatePasswordResetTokenInner now raw newId st email
      = (Except.error AuthError.accountDeactivated, st) := by
    simp [generatePasswordResetTokenInner, hu, hin]
  refine ⟨?_, by rw [hinner], rfl⟩
  simp [generatePasswordResetToken, hinner]

/-- Witness for the amended C6, at the concrete deactivated Carol. -/
theorem C6_amended_generate_inactive_generic_witness :
    generatePasswordResetToken 0 "rawsecret" "pr-c" inactiveStore "carol@example.com"
      = (Except.error AuthError.resetTokenGenerationFailed, inactiveStore) ∧
    (generatePasswordResetTokenInner 0 "rawsecret" "pr-c" inactiveStore "carol@example.com").1
      = Except.error AuthError.accountDeactivated :=
  ⟨(C6_amended_generate_inactive_generic 0 "rawsecret" "pr-c" inactiveStore
      "carol@example.com" carolUser rfl rfl).1,
   (C6_amended_generate_inactive_generic 0 "rawsecret" "pr-c" inactiveStore
      "carol@example.com" carolUser rfl rfl).2.1⟩

/-- C1: consumption of a reset token is single-use and atomic: a successful
`resetPassword` leaves exactly the store obtained by applying the
`prisma.$transaction` pair — password digest updated and token record deleted
together — so the owning user's digest is the new hash, the record is gone,
and every subsequent `resetPassword` with the same raw token (and a new
password passing the length validation) fails with
`Error('Invalid or expired reset token')`. The digest-uniqueness hypothesis
restates the schema's `token @unique` constraint. -/
theorem C1_reset_password_single_use (now : Nat) (st st' : Store)
    (raw pw : String) (rec : PasswordReset)
    (hrec : findResetByToken st (sha256Hex raw) = some rec)
    (huniq : ∀ r ∈ st.passwordResets, r.token = sha256Hex raw → r.id = rec.id)
    (h : resetPassword now st raw pw = (Except.ok (), st')) :
    st' = deleteResetById (updateUserPassword st rec.userId (bcryptHash pw)) rec.id ∧
    (∀ u ∈ st'.users, u.id = rec.userId → u.password = bcryptHash pw) ∧
    findResetByToken st' (sha256Hex raw) = none ∧
    (∀ now2 pw2, 6 ≤ pw2.length →
      (resetPassword now2 st' raw pw2).1 = Except.error AuthError.invalidResetToken) := by
  have hst' : st' = deleteResetById (updateUserPassword st rec.userId (bcryptHash pw)) rec.id := by
    unfold resetPassword at h
    by_cases hlen : pw.length < 6
    · simp [hlen] at h
    · rw [if_neg hlen] at h
      simp only [hrec] at h
      cases hu : findUserById st rec.userId with
      | none => rw [hu] at h; simp at h
      | some user =>
          rw [hu] at h
          by_cases hexp : rec.expiresAt < now
          · simp [hexp] at h
          · cases hact : user.isActive with
            | false => simp [hexp, hact] at h
            | true =>
                simp [hexp, hact] at h
                exact h.symm
  have hfind : findResetByToken st' (sha256Hex raw) = none := by
    rw [hst']
    exact find_after_delete_eq_none (updateUserPassword st rec.userId (bcryptHash pw))
      (sha256Hex raw) rec huniq
  refine ⟨hst', ?_, hfind, ?_⟩
  · intro u hu hid
    rw [hst'] at hu
    simp only [deleteResetById, updateUserPassword, List.mem_map] at hu
    obtain ⟨u0, hu0, heq⟩ := hu
    by_cases h0 : u0.id == rec.userId
    · rw [if_pos h0] at heq
      rw [← heq]
    · rw [if_neg h0] at heq
      subst heq
      exact absurd hid (by simpa using h0)
  · intro now2 pw2 hpw2
    have := resetPassword_no_record now2 st' raw pw2 hpw2 hfind
    rw [this]

/-- Witness for C1: Alice's token `rawtok1` is consumed once; afterwards the
record is gone and a second reset attempt with the same raw token fails with
the invalid-token error. -/
theorem C1_reset_password_single_use_witness :
    findResetByToken (resetPassword 10 resetStore "rawtok1" "newpass1").2
      (sha256Hex "rawtok1") = none ∧
    (resetPassword 20 (resetPassword 10 resetStore "rawtok1" "newpass1").2
      "rawtok1" "newpass2").1 = Except.error AuthError.invalidResetToken := by
  have h := C1_reset_password_single_use 10 resetStore
    (resetPassword 10 resetStore "rawtok1" "newpass1").2 "rawtok1" "newpass1"
    aliceReset rfl (by decide) rfl
  exact ⟨h.2.2.1, h.2.2.2 20 "newpass2" (by decide)⟩

/-- C3: a reset token strictly past its `expiresAt` makes `resetPassword`
(with a new password passing the length validation) delete the record and
fail with the expired-token error — a failure distinct from the
invalid-token one — and a subsequent call with the same raw token then fails
with the invalid-token error, the record having been purged. The
digest-uniqueness hypothesis restates the schema's `token @unique`
constraint, and the owning user exists by the `userId` foreign key. -/
theorem C3_expired_token_purged (now now2 : Nat) (st : Store)
    (raw pw pw2 : String) (rec : PasswordReset) (u : User)
    (hrec : findResetByToken st (sha256Hex raw) = some rec)
    (hu : findUserById st rec.userId = some u)
    (hexp : rec.expiresAt < now)
    (hpw : 6 ≤ pw.length) (hpw2 : 6 ≤ pw2.length)
    (huniq : ∀ r ∈ st.passwordResets, r.token = sha256Hex raw → r.id = rec.id) :
    resetPassword now st raw pw
      = (Except.error AuthError.resetTokenExpired, deleteResetById st rec.id) ∧
    AuthError.resetTokenExpired ≠ AuthError.invalidResetToken ∧
    findResetByToken (deleteResetById st rec.id) (sha256Hex raw) = none ∧
    (resetPassword now2 (deleteResetById st rec.id) raw pw2).1
      = Except.error AuthError.invalidResetToken := by
  have hfind : findResetByToken (deleteResetById st rec.id) (sha256Hex raw) = none :=
    find_after_delete_eq_none st (sha256Hex raw) rec huniq
  refine ⟨?_, by decide, hfind, ?_⟩
  · unfold resetPassword
    rw [if_neg (Nat.not_lt.mpr hpw)]
    simp only [hrec, hu]
    rw [if_pos hexp]
  · rw [resetPassword_no_record now2 (deleteResetById st rec.id) raw pw2 hpw2 hfind]

/-- Witness for C3: Alice's expired token (expiry 5, call at time 10) is
purged with the expired-token error; retrying yields the invalid-token error. -/
theorem C3_expired_token_purged_witness :
    resetPassword 10 expiredStore "rawexp" "newpass1"
      = (Except.error AuthError.resetTokenExpired, deleteResetById expiredStore expiredReset.id) ∧
    (resetPassword 20 (deleteResetById expiredStore expiredReset.id) "rawexp" "newpass2").1
      = Except.error AuthError.invalidResetToken := by
  have h := C3_expired_token_purged 10 20 expiredStore "rawexp" "newpass1" "newpass2"
    expiredReset aliceUser rfl rfl (by decide) (by decide) (by decide) (by decide)
  exact ⟨h.1, h.2.2.2⟩

/-- The `sha256Hex` digest model is injective. -/
theorem sha256Hex_injective (a b : String) (h : sha256Hex a = sha256Hex b) : a = b := by
  unfold sha256Hex at h
  have hd : ("sha256$" ++ a).data = ("sha256$" ++ b).data := by rw [h]
  rw [String.data_append, String.data_append] at hd
  exact String.ext (List.append_cancel_left hd)

/-- Shape of a successful data-returning `try` body of
`generatePasswordResetToken`: an active user matched the lowercased email,
the raw secret is returned, and the store now holds every record of other
users plus the single new record for this user. -/
theorem generateInner_ok_shape (now : Nat) (raw newId : String) (st : Store)
    (email : String) (d : ResetTokenData) (st' : Store)
    (h : generatePasswordResetTokenInner now raw newId st email
      = (Except.ok (some d), st')) :
    ∃ u, findUserByEmail st (toLowerCase email) = some u ∧ u.isActive = true ∧
      d = { email := u.email, name := u.name, resetToken := raw } ∧
      st' = createReset (deleteResetsForUser st u.id)
        { id := newId, userId := u.id, token := sha256Hex raw,
          expiresAt := now + 60 * 60 * 1000 } := by
  unfold generatePasswordResetTokenInner at h
  cases hu : findUserByEmail st (toLowerCase email) with
  | none => rw [hu] at h; simp at h
  | some u =>
      rw [hu] at h
      cases hact : u.isActive with
      | false => simp [hact] at h
      | true =>
          obtain ⟨de, dn, dr⟩ := d
          simp [hact] at h
          obtain ⟨⟨he, hn, hr⟩, hs⟩ := h
          exact ⟨u, rfl, hact, by rw [he, hn, hr], hs.symm⟩

/-- The same shape lifted through the catch-all wrapper. -/
theorem generate_ok_shape (now : Nat) (raw newId : String) (st : Store)
    (email : String) (d : ResetTokenData) (st' : Store)
    (h : generatePasswordResetToken now raw newId st email
      = (Except.ok (some d), st')) :
    ∃ u, findUserByEmail st (toLowerCase email) = some u ∧ u.isActive = true ∧
      d = { email := u.email, name := u.name, resetToken := raw } ∧
      st' = createReset (deleteResetsForUser st u.id)
        { id := newId, userId := u.id, token := sha256Hex raw,
          expiresAt := now + 60 * 60 * 1000 } := by
  apply generateInner_ok_shape now raw newId st email d st'
  unfold generatePasswordResetToken at h
  cases hi : generatePasswordResetTokenInner now raw newId st email with
  | mk res st1 =>
      rw [hi] at h
      cases res with
      | error e => simp at h
      | ok v => exact h

/-- Records kept by a userId-excluding filter never survive a userId-matching
filter. -/
theorem filter_beq_of_filter_bne (l : List PasswordReset) (uid : String) :
    List.filter (fun r => r.userId == uid)
      (List.filter (fun r => r.userId != uid) l) = [] := by
  rw [List.filter_eq_nil_iff]
  intro a ha
  simp only [List.mem_filter, bne_iff_ne, ne_eq] at ha
  simp only [beq_iff_eq]
  exact ha.2

/-- C4: at most one live reset token per user. A successful
`generatePasswordResetToken` returns the raw secret it was issued; after a
second successful call for the same email, the user's reset records consist
exactly of the second call's single new record, the first secret's digest no
longer matches any record, and `resetPassword` with the first raw secret
(and a new password passing the length validation) fails with the
invalid-token error. The freshness hypotheses model the cryptographically
random `randomBytes` secrets: the first secret is not already stored and the
two draws differ. -/
theorem C4_second_generate_supersedes (now1 now2 now3 : Nat)
    (raw1 raw2 id1 id2 pw : String) (st st1 st2 : Store) (email : String)
    (d1 d2 : ResetTokenData)
    (h1 : generatePasswordResetToken now1 raw1 id1 st email = (Except.ok (some d1), st1))
    (h2 : generatePasswordResetToken now2 raw2 id2 st1 email = (Except.ok (some d2), st2))
    (hfresh : findResetByToken st (sha256Hex raw1) = none)
    (hneq : raw1 ≠ raw2)
    (hpw : 6 ≤ pw.length) :
    d1.resetToken = raw1 ∧
    (∃ u, findUserByEmail st (toLowerCase email) = some u ∧
      st2.passwordResets.filter (fun r => r.userId == u.id)
        = [{ id := id2, userId := u.id, token := sha256Hex raw2,
             expiresAt := now2 + 60 * 60 * 1000 }]) ∧
    findResetByToken st2 (sha256Hex raw1) = none ∧
    (resetPassword now3 st2 raw1 pw).1 = Except.error AuthError.invalidResetToken := by
  obtain ⟨u, hu, hact, hd1, hst1⟩ := generate_ok_shape _ _ _ _ _ _ _ h1
  have hu1 : findUserByEmail st1 (toLowerCase email) = some u := by
    rw [hst1]; exact hu
  obtain ⟨u', hu', hact', hd2, hst2⟩ := generate_ok_shape _ _ _ _ _ _ _ h2
  have huu : u' = u := by
    rw [hu1] at hu'
    exact (Option.some.inj hu').symm
  subst huu
  have hfreshMem : ∀ r ∈ st.passwordResets, ¬(r.token == sha256Hex raw1) = true := by
    unfold findResetByToken at hfresh
    exact List.find?_eq_none.mp hfresh
  have hnone : findResetByToken st2 (sha256Hex raw1) = none := by
    rw [hst2, hst1]
    unfold findResetByToken createReset deleteResetsForUser
    rw [List.find?_eq_none]
    intro r hr
    simp only [List.mem_append, List.mem_filter, List.mem_singleton] at hr
    rcases hr with ⟨⟨hmem, hp1⟩ | hrec1, hp2⟩ | hr2
    · exact hfreshMem r hmem
    · subst hrec1
      simp at hp2
    · subst hr2
      simp only [beq_iff_eq]
      intro hcontra
      exact hneq (sha256Hex_injective raw2 raw1 hcontra).symm
  refine ⟨by rw [hd1], ⟨u', hu, ?_⟩, hnone, ?_⟩
  · rw [hst2, hst1]
    unfold createReset deleteResetsForUser
    simp [List.filter_append, filter_beq_of_filter_bne, bne_self_eq_false,
      beq_self_eq_true]
  · rw [resetPassword_no_record now3 st2 raw1 pw hpw hnone]

/-- Witness for C4: two consecutive token generations for Alice; the first
raw secret no longer matches any record and can no longer reset the password. -/
theorem C4_second_generate_supersedes_witness :
    findResetByToken (generatePasswordResetToken 5 "raw2" "pr2"
      (generatePasswordResetToken 0 "raw1" "pr1" demoStore "alice@example.com").2
      "alice@example.com").2 (sha256Hex "raw1") = none ∧
    (resetPassword 9 (generatePasswordResetToken 5 "raw2" "pr2"
      (generatePasswordResetToken 0 "raw1" "pr1" demoStore "alice@example.com").2
      "alice@example.com").2 "raw1" "newpass9").1
      = Except.error AuthError.invalidResetToken := by
  have h := C4_second_generate_supersedes 0 5 9 "raw1" "raw2" "pr1" "pr2" "newpass9"
    demoStore
    (generatePasswordResetToken 0 "raw1" "pr1" demoStore "alice@example.com").2
    (generatePasswordResetToken 5 "raw2" "pr2"
      (generatePasswordResetToken 0 "raw1" "pr1" demoStore "alice@example.com").2
      "alice@example.com").2
    "alice@example.com"
    { email := "alice@example.com", name := "Alice", resetToken := "raw1" }
    { email := "alice@example.com", name := "Alice", resetToken := "raw2" }
    rfl rfl rfl (by decide) (by decide)
  exact ⟨h.2.2.1, h.2.2.2⟩
